import Mathlib

/-!
Verification of the `attestify/std-kernel-drivers-oss` repository: the
`SystemTimeUTCTimeStampGW` adapter (`src/gateways/utc_timestamp/std_time_systemtime.rs`)
and the `UTCTimestamp` value type it produces.

The adapter under `src/` depends on the `attestify_kernel` crate for
`UTCTimestamp`, its builder, and the `Error`/`Kind` types; those are not part
of the repository sources, so they are modelled from the spec (each such
definition is marked `Modelled from the spec:`).  The adapter's own `now()`
is translated directly from `std_time_systemtime.rs`.  Machine integers are
embedded as `Nat`; the host clock reading (`SystemTime::now().duration_since(UNIX_EPOCH)`)
is embedded as an `Except`-valued input to `now`, and `Duration` as its
`(secs, subsec_nanos)` pair with `as_nanos = secs * 10^9 + subsec_nanos`.
-/

namespace Attestify

/-- Modelled from the spec: the error kinds of `attestify_kernel::error::Kind`
used by the adapter.  The spec requires exactly two distinguishable kinds:
a "gateway error" and a "processing failure". -/
inductive Kind where
  | GatewayError
  | ProcessingFailure
  deriving DecidableEq, Repr

/-- Modelled from the spec: `attestify_kernel::error::Error`, an error value
carrying a kind tag and a human-readable cause description. -/
structure Error where
  kind : Kind
  message : String
  deriving DecidableEq, Repr

/-- Modelled from the spec: `Error::for_system(kind, message)` constructs an
error of the given kind carrying the given message. -/
def Error.for_system (k : Kind) (msg : String) : Error :=
  { kind := k, message := msg }

/-- Modelled from the spec: the internal storage width of `UTCTimestamp`.
The spec leaves the width open ("e.g., 64-bit or 128-bit unsigned"); we fix a
64-bit unsigned storage, so the representable nanosecond counts are the
naturals at most `2^64 - 1`. -/
def NANO_MAX : ℕ := 2 ^ 64 - 1

/-- Modelled from the spec: `attestify_kernel::values::datetime::utc_timestamp::UTCTimestamp`,
an immutable value storing a nanosecond count since the Unix epoch. -/
structure UTCTimestamp where
  nanos_since_epoch : ℕ
  deriving DecidableEq, Repr

/-- Modelled from the spec: `as_nano()` returns the exact stored value. -/
def UTCTimestamp.as_nano (t : UTCTimestamp) : ℕ :=
  t.nanos_since_epoch

/-- Modelled from the spec: `as_milli()` is `nanos_since_epoch / 1_000_000`
with integer floor division. -/
def UTCTimestamp.as_milli (t : UTCTimestamp) : ℕ :=
  t.nanos_since_epoch / 1000000

/-- Modelled from the spec: `as_sec()` is `nanos_since_epoch / 1_000_000_000`
with integer floor division. -/
def UTCTimestamp.as_sec (t : UTCTimestamp) : ℕ :=
  t.nanos_since_epoch / 1000000000

/-- Modelled from the spec: the staged state of the `UTCTimestamp` builder;
the single field is the (optional) nanosecond count supplied via `use_ns`. -/
structure UTCTimestampBuilder where
  ns : Option ℕ
  deriving DecidableEq, Repr

/-- Modelled from the spec: `UTCTimestamp::builder()` starts with no value
supplied. -/
def UTCTimestamp.builder : UTCTimestampBuilder :=
  { ns := none }

/-- Modelled from the spec: `use_ns(n)` records the nanosecond count. -/
def UTCTimestampBuilder.use_ns (b : UTCTimestampBuilder) (n : ℕ) : UTCTimestampBuilder :=
  { b with ns := some n }

/-- Modelled from the spec: `build()` validates and constructs.  It fails if
no value was supplied before `build()`, or if the supplied count cannot be
represented in the internal storage width; otherwise it produces the
immutable instance.  Pure: no side effects, no clock access. -/
def UTCTimestampBuilder.build (b : UTCTimestampBuilder) : Except String UTCTimestamp :=
  match b.ns with
  | none => Except.error "no nanosecond value was supplied"
  | some n =>
      if n ≤ NANO_MAX then
        Except.ok { nanos_since_epoch := n }
      else
        Except.error "nanosecond value exceeds the internal storage width"

/-- `std::time::Duration` as reported by
`SystemTime::now().duration_since(UNIX_EPOCH)`: a whole-second count and a
sub-second nanosecond count. -/
structure Duration where
  secs : ℕ
  subsec_nanos : ℕ
  deriving DecidableEq, Repr

/-- `Duration::as_nanos()`: the total nanosecond count of the duration,
exactly. -/
def Duration.as_nanos (d : Duration) : ℕ :=
  d.secs * 1000000000 + d.subsec_nanos

/-- The host clock reading: either a `Duration` since the Unix epoch, or the
description of a `SystemTimeError` (the clock could not produce a reading
relative to the epoch, e.g. the host clock is set before it). -/
abbrev ClockReading := Except String Duration

/-- `SystemTimeUTCTimeStampGW`: a zero-field adapter struct
(`#[derive(Clone, Default)] pub struct SystemTimeUTCTimeStampGW;`). -/
structure SystemTimeUTCTimeStampGW where
  deriving DecidableEq, Repr

/-- `SystemTimeUTCTimeStampGW::new()`. -/
def SystemTimeUTCTimeStampGW.new : SystemTimeUTCTimeStampGW :=
  {}

/-- `Default::default()` for `SystemTimeUTCTimeStampGW` (derived). -/
def SystemTimeUTCTimeStampGW.default : SystemTimeUTCTimeStampGW :=
  {}

/-- `Clone::clone` for `SystemTimeUTCTimeStampGW` (derived): returns a copy
of the value. -/
def SystemTimeUTCTimeStampGW.clone (g : SystemTimeUTCTimeStampGW) : SystemTimeUTCTimeStampGW :=
  g

/-- `SystemTimeUTCTimeStampGW::now()`, translated from
`std_time_systemtime.rs` lines 18-32.  The single effectful step — the host
clock reading `SystemTime::now().duration_since(UNIX_EPOCH)` — is passed in
as the `clock` argument; the rest is the source's pure control flow:
`map_err` to a `GatewayError` and early return on a failed reading (`?`),
then `UTCTimestamp::builder().use_ns(duration.as_nanos()).build()` with
`map_err` to a `ProcessingFailure`. -/
def SystemTimeUTCTimeStampGW.now (_g : SystemTimeUTCTimeStampGW) (clock : ClockReading) :
    Except Error UTCTimestamp :=
  match clock with
  | Except.error e =>
      Except.error (Error.for_system Kind.GatewayError
        ("Failed to retrieve the SystemTime because of: " ++ e))
  | Except.ok duration =>
      match (UTCTimestamp.builder.use_ns duration.as_nanos).build with
      | Except.error e =>
          Except.error (Error.for_system Kind.ProcessingFailure
            ("Failed build the UTCTimestamp from the SystemTime: " ++ e))
      | Except.ok t => Except.ok t

/-- `now` with the builder's `build` step abstracted as a parameter; used to
state that on a clock read failure the builder is never consulted.
`now_build_abstracted` applied to the real `build` coincides with `now`
definitionally. -/
def now_build_abstracted (build : ℕ → Except String UTCTimestamp)
    (_g : SystemTimeUTCTimeStampGW) (clock : ClockReading) :
    Except Error UTCTimestamp :=
  match clock with
  | Except.error e =>
      Except.error (Error.for_system Kind.GatewayError
        ("Failed to retrieve the SystemTime because of: " ++ e))
  | Except.ok duration =>
      match build duration.as_nanos with
      | Except.error e =>
          Except.error (Error.for_system Kind.ProcessingFailure
            ("Failed build the UTCTimestamp from the SystemTime: " ++ e))
      | Except.ok t => Except.ok t

/-- A call to `now` against a supply of successive host clock readings: the
call consumes the first reading and leaves the remaining supply untouched
(the source performs exactly one `SystemTime::now()` call, with no retry
loop). -/
def now_on_supply (g : SystemTimeUTCTimeStampGW)
    (first : ClockReading) (rest : List ClockReading) :
    Except Error UTCTimestamp × List ClockReading :=
  (g.now first, rest)

/-- Claim C1: for every `UTCTimestamp`, the three readings are
floor-consistent: `millis*1_000_000 ≤ nanos < (millis+1)*1_000_000`,
`secs*1000 ≤ millis < (secs+1)*1000`,
`secs*1_000_000_000 ≤ nanos < (secs+1)*1_000_000_000`, and equivalently
`as_milli = as_nano / 1_000_000` and `as_sec = as_nano / 1_000_000_000`
with floor division. -/
theorem claim_C1_truncation_consistency (t : UTCTimestamp) :
    t.as_milli * 1000000 ≤ t.as_nano ∧ t.as_nano < (t.as_milli + 1) * 1000000 ∧
    t.as_sec * 1000 ≤ t.as_milli ∧ t.as_milli < (t.as_sec + 1) * 1000 ∧
    t.as_sec * 1000000000 ≤ t.as_nano ∧ t.as_nano < (t.as_sec + 1) * 1000000000 ∧
    t.as_milli = t.as_nano / 1000000 ∧ t.as_sec = t.as_nano / 1000000000 := by
  obtain ⟨n⟩ := t
  simp only [UTCTimestamp.as_nano, UTCTimestamp.as_milli, UTCTimestamp.as_sec]
  refine ⟨?_, ?_, ?_, ?_, ?_, ?_, ?_, ?_⟩ <;> first | omega | trivial

/-- Claim C2: when the host clock reading succeeds with duration `d` and the
builder accepts `d.as_nanos`, `now()` returns `Ok` of that timestamp, whose
`as_nano()` is exactly the nanosecond count of the host-reported duration. -/
theorem claim_C2_now_exact_translation (g : SystemTimeUTCTimeStampGW) (d : Duration)
    (t : UTCTimestamp)
    (h : (UTCTimestamp.builder.use_ns d.as_nanos).build = Except.ok t) :
    g.now (Except.ok d) = Except.ok t ∧ t.as_nano = d.as_nanos := by
  refine ⟨?_, ?_⟩
  · simp [SystemTimeUTCTimeStampGW.now, h]
  · simp only [UTCTimestampBuilder.build, UTCTimestampBuilder.use_ns,
      UTCTimestamp.builder] at h
    split at h
    · cases h
      rfl
    · cases h

/-- Witness for C2 at the concrete duration 1 s + 500 000 000 ns. -/
theorem claim_C2_now_exact_translation_witness :
    SystemTimeUTCTimeStampGW.new.now
        (Except.ok { secs := 1, subsec_nanos := 500000000 }) =
      Except.ok { nanos_since_epoch := 1500000000 } ∧
    UTCTimestamp.as_nano { nanos_since_epoch := 1500000000 } =
      Duration.as_nanos { secs := 1, subsec_nanos := 500000000 } :=
  claim_C2_now_exact_translation SystemTimeUTCTimeStampGW.new
    { secs := 1, subsec_nanos := 500000000 } { nanos_since_epoch := 1500000000 }
    (by rfl)

/-- Claim C3: `now()` fails in exactly two distinguishable ways: a failed
clock reading yields a `Kind.GatewayError` carrying the cause description,
and a builder rejection yields a `Kind.ProcessingFailure` carrying the cause
description; the two kinds are distinct tags. -/
theorem claim_C3_two_error_kinds (g : SystemTimeUTCTimeStampGW) (e : String)
    (d : Duration) (m : String)
    (h : (UTCTimestamp.builder.use_ns d.as_nanos).build = Except.error m) :
    (∃ err : Error, g.now (Except.error e) = Except.error err ∧
      err.kind = Kind.GatewayError ∧
      err.message = "Failed to retrieve the SystemTime because of: " ++ e) ∧
    (∃ err2 : Error, g.now (Except.ok d) = Except.error err2 ∧
      err2.kind = Kind.ProcessingFailure ∧
      err2.message = "Failed build the UTCTimestamp from the SystemTime: " ++ m) ∧
    Kind.GatewayError ≠ Kind.ProcessingFailure := by
  refine ⟨⟨_, rfl, rfl, rfl⟩,
    ⟨Error.for_system Kind.ProcessingFailure
      ("Failed build the UTCTimestamp from the SystemTime: " ++ m), ?_, rfl, rfl⟩,
    by decide⟩
  simp [SystemTimeUTCTimeStampGW.now, h, Error.for_system]

/-- Witness for C3 at a concrete failed reading and a concrete duration of
`2^64` seconds, whose nanosecond count overflows the storage width. -/
theorem claim_C3_two_error_kinds_witness :
    (∃ err : Error,
      SystemTimeUTCTimeStampGW.new.now (Except.error "second time provided was later than self") =
        Except.error err ∧
      err.kind = Kind.GatewayError ∧
      err.message = "Failed to retrieve the SystemTime because of: " ++
        "second time provided was later than self") ∧
    (∃ err2 : Error,
      SystemTimeUTCTimeStampGW.new.now (Except.ok { secs := 2 ^ 64, subsec_nanos := 0 }) =
        Except.error err2 ∧
      err2.kind = Kind.ProcessingFailure ∧
      err2.message = "Failed build the UTCTimestamp from the SystemTime: " ++
        "nanosecond value exceeds the internal storage width") ∧
    Kind.GatewayError ≠ Kind.ProcessingFailure :=
  claim_C3_two_error_kinds SystemTimeUTCTimeStampGW.new
    "second time provided was later than self"
    { secs := 2 ^ 64, subsec_nanos := 0 }
    "nanosecond value exceeds the internal storage width"
    (by rfl)

/-- Claim C4: for every clock reading failure (e.g. a host time before the
epoch), `now()` returns an error of the gateway-error kind; it never returns
an `Ok` timestamp on such a reading, in particular no default or zero-valued
one. -/
theorem claim_C4_pre_epoch_is_gateway_error (g : SystemTimeUTCTimeStampGW) (e : String) :
    (∃ err : Error, g.now (Except.error e) = Except.error err ∧
      err.kind = Kind.GatewayError) ∧
    ∀ t : UTCTimestamp, g.now (Except.error e) ≠ Except.ok t := by
  refine ⟨⟨_, rfl, rfl⟩, ?_⟩
  intro t hc
  cases hc

/-- Claim C5: for every nanosecond count `N` within the representable range,
`builder().use_ns(N).build()` succeeds and the resulting timestamp's
`as_nano()` is exactly `N`. -/
theorem claim_C5_builder_round_trip (N : ℕ) (h : N ≤ NANO_MAX) :
    ∃ t : UTCTimestamp,
      (UTCTimestamp.builder.use_ns N).build = Except.ok t ∧ t.as_nano = N := by
  refine ⟨{ nanos_since_epoch := N }, ?_, rfl⟩
  simp [UTCTimestampBuilder.build, UTCTimestampBuilder.use_ns, UTCTimestamp.builder, h]

/-- Witness for C5 at `N = 1_500_000_000`. -/
theorem claim_C5_builder_round_trip_witness :
    ∃ t : UTCTimestamp,
      (UTCTimestamp.builder.use_ns 1500000000).build = Except.ok t ∧
      t.as_nano = 1500000000 :=
  claim_C5_builder_round_trip 1500000000 (by decide)

/-- Claim C6: a nanosecond count above the representable range makes
`build()` fail with a construction error and no instance, and a `build()`
with no value supplied fails likewise: construction is all-or-nothing. -/
theorem claim_C6_construction_failure (N : ℕ) (h : NANO_MAX < N) :
    (∃ m : String, (UTCTimestamp.builder.use_ns N).build = Except.error m) ∧
    (∀ t : UTCTimestamp, (UTCTimestamp.builder.use_ns N).build ≠ Except.ok t) ∧
    (∃ m : String, UTCTimestamp.builder.build = Except.error m) ∧
    (∀ t : UTCTimestamp, UTCTimestamp.builder.build ≠ Except.ok t) := by
  have hb : (UTCTimestamp.builder.use_ns N).build =
      Except.error "nanosecond value exceeds the internal storage width" := by
    simp [UTCTimestampBuilder.build, UTCTimestampBuilder.use_ns, UTCTimestamp.builder,
      Nat.not_le.mpr h]
  refine ⟨⟨_, hb⟩, ?_, ⟨_, rfl⟩, ?_⟩
  · intro t hc
    rw [hb] at hc
    cases hc
  · intro t hc
    cases hc

/-- Witness for C6 at `N = 2^64`, one past the representable range. -/
theorem claim_C6_construction_failure_witness :
    (∃ m : String, (UTCTimestamp.builder.use_ns (2 ^ 64)).build = Except.error m) ∧
    (∀ t : UTCTimestamp, (UTCTimestamp.builder.use_ns (2 ^ 64)).build ≠ Except.ok t) ∧
    (∃ m : String, UTCTimestamp.builder.build = Except.error m) ∧
    (∀ t : UTCTimestamp, UTCTimestamp.builder.build ≠ Except.ok t) :=
  claim_C6_construction_failure (2 ^ 64) (by decide)

/-- Claim C7: for a clock source fixed at exactly 1 500 000 000 ns since the
epoch, `now()` returns `Ok` of a timestamp with `as_nano() = 1_500_000_000`,
`as_milli() = 1500` and `as_sec() = 1`. -/
theorem claim_C7_gateway_success_scenario :
    ∃ t : UTCTimestamp,
      SystemTimeUTCTimeStampGW.new.now
          (Except.ok { secs := 1, subsec_nanos := 500000000 }) = Except.ok t ∧
      t.as_nano = 1500000000 ∧ t.as_milli = 1500 ∧ t.as_sec = 1 := by
  exact ⟨{ nanos_since_epoch := 1500000000 }, by rfl, rfl, rfl, rfl⟩

/-- Claim C8: `now()` consumes exactly one clock reading per call — the
result depends only on the first reading of the supply and the remaining
supply is returned untouched (no retries, no mutation of shared state) —
and on a failed clock reading the result is the gateway error regardless of
the builder, so the builder is never invoked there. -/
theorem claim_C8_single_read_no_retry (g : SystemTimeUTCTimeStampGW)
    (first : ClockReading) (rest rest2 : List ClockReading)
    (build1 build2 : ℕ → Except String UTCTimestamp) (e : String) :
    now_on_supply g first rest = (g.now first, rest) ∧
    (now_on_supply g first rest).1 = (now_on_supply g first rest2).1 ∧
    now_build_abstracted build1 g (Except.error e) =
      now_build_abstracted build2 g (Except.error e) ∧
    ∀ c : ClockReading,
      g.now c = now_build_abstracted
        (fun n => (UTCTimestamp.builder.use_ns n).build) g c := by
  refine ⟨rfl, rfl, rfl, ?_⟩
  intro c
  cases c <;> rfl

/-- Claim C9: the readings are deterministic pure functions of the stored
nanosecond count alone: any two instances holding the same count agree on
`as_nano`, `as_milli` and `as_sec`, and each reading is determined by the
stored count. -/
theorem claim_C9_readings_deterministic (t t2 : UTCTimestamp)
    (h : t.nanos_since_epoch = t2.nanos_since_epoch) :
    t.as_nano = t2.as_nano ∧ t.as_milli = t2.as_milli ∧ t.as_sec = t2.as_sec := by
  obtain ⟨n⟩ := t
  obtain ⟨n2⟩ := t2
  cases h
  exact ⟨rfl, rfl, rfl⟩

/-- Witness for C9 at two equal-count instances. -/
theorem claim_C9_readings_deterministic_witness :
    UTCTimestamp.as_nano { nanos_since_epoch := 1500000000 } =
      UTCTimestamp.as_nano { nanos_since_epoch := 1500000000 } ∧
    UTCTimestamp.as_milli { nanos_since_epoch := 1500000000 } =
      UTCTimestamp.as_milli { nanos_since_epoch := 1500000000 } ∧
    UTCTimestamp.as_sec { nanos_since_epoch := 1500000000 } =
      UTCTimestamp.as_sec { nanos_since_epoch := 1500000000 } :=
  claim_C9_readings_deterministic { nanos_since_epoch := 1500000000 }
    { nanos_since_epoch := 1500000000 } rfl

/-- Claim C10: the gateway is a stateless zero-field value: `new()`,
`default()` and `clone` all produce equivalent instances — indeed any two
instances are equal — and `now()` depends only on the clock reading, never
on which instance is used. -/
theorem claim_C10_stateless_gateway (g g2 : SystemTimeUTCTimeStampGW)
    (c : ClockReading) :
    SystemTimeUTCTimeStampGW.new = SystemTimeUTCTimeStampGW.default ∧
    g.clone = g ∧ g = g2 ∧ g.now c = g2.now c := by
  cases g
  cases g2
  exact ⟨rfl, rfl, rfl, rfl⟩

end Attestify
